import Mathlib

/-!
Verification development for the client-side image compression utility
in LQBZ/Anli/image-compress.js.

The JavaScript is embedded shallowly: JavaScript numbers are modelled as
rationals (the arithmetic the code performs on image dimensions is exact
in IEEE doubles for realistic sizes, and the model keeps it exact),
JavaScript strings are modelled as Lean strings with the string methods
the code uses re-implemented over the underlying character lists, and the
promise/event machinery of compressImage is modelled as a fuel-indexed
interpreter over an environment that says how each image load attempt
behaves and whether canvas drawing throws.
-/

set_option maxRecDepth 8000

namespace ImageCompress

/-! ## JavaScript string primitives

Models of the string methods the source uses: startsWith, includes,
endsWith, toLowerCase. They operate on the character list of a string,
so that every call on concrete data reduces. -/

/-- Model of JavaScript startsWith on character lists. -/
def listStartsWith : List Char → List Char → Bool
  | _, [] => true
  | [], _ :: _ => false
  | a :: s, b :: p => a == b && listStartsWith s p

/-- Model of JavaScript includes on character lists: some suffix of the
string starts with the pattern. -/
def listIncludes (s pat : List Char) : Bool :=
  match s with
  | [] => listStartsWith [] pat
  | _ :: rest => listStartsWith s pat || listIncludes rest pat

/-- Model of JavaScript endsWith on character lists. -/
def listEndsWith (s pat : List Char) : Bool :=
  listStartsWith s.reverse pat.reverse

/-- Lower-casing of a single character, as toLowerCase does for ASCII. -/
def jsToLowerChar (c : Char) : Char :=
  if c.isUpper then c.toLower else c

/-- Model of JavaScript toLowerCase on character lists. -/
def jsToLower (s : List Char) : List Char := s.map jsToLowerChar

/-- JavaScript s.startsWith(pat). -/
def strStartsWith (s pat : String) : Bool := listStartsWith s.data pat.data

/-- JavaScript s.includes(pat). -/
def strIncludes (s pat : String) : Bool := listIncludes s.data pat.data

/-- JavaScript s.endsWith(pat). -/
def strEndsWith (s pat : String) : Bool := listEndsWith s.data pat.data

/-- JavaScript s.toLowerCase().includes(pat), the test on line 83 of the
source. -/
def strIncludesLower (s pat : String) : Bool :=
  listIncludes (jsToLower s.data) pat.data

/-! ## The cross-origin decision (image-compress.js lines 19-31) -/

/-- The parts of window.location the source reads. -/
structure Location where
  protocol : String
  host : String
  deriving DecidableEq

/-- Embeds the condition under which compressImage sets
img.crossOrigin to anonymous (lines 22-28): not a data URL, not a
root-relative or dot-relative path, contains "://", and does not start
with the current protocol and host. -/
def setsCrossOrigin (imageSrc : String) (loc : Location) : Bool :=
  !(strStartsWith imageSrc "data:") &&
  !(strStartsWith imageSrc "/") &&
  !(strStartsWith imageSrc "./") &&
  strIncludes imageSrc "://" &&
  !(strStartsWith imageSrc (loc.protocol ++ "//" ++ loc.host))

/-! ## The onload computation (image-compress.js lines 33-93) -/

/-- Embeds line 41: width > maxWidth or height > maxHeight. -/
def shouldResize (width height maxWidth maxHeight : ℚ) : Bool :=
  decide (maxWidth < width) || decide (maxHeight < height)

/-- Embeds the scaling block, lines 50-62: only when shouldResize holds,
and then only the branch picked by comparing width to height clamps a
dimension, each branch testing that dimension against its own bound. -/
def scaleDims (width height maxWidth maxHeight : ℚ) : ℚ × ℚ :=
  if shouldResize width height maxWidth maxHeight then
    if height < width then
      if maxWidth < width then (maxWidth, height * maxWidth / width)
      else (width, height)
    else
      if maxHeight < height then (width * maxHeight / height, maxHeight)
      else (width, height)
  else (width, height)

/-- Embeds the format decision of lines 78-86: PNG exactly when the
lower-cased source contains ".png" and shouldResize was false. -/
def usePng (imageSrc : String) (sr : Bool) : Bool :=
  strIncludesLower imageSrc ".png" && !sr

/-- Output MIME type chosen on lines 78-86. -/
def outputFormat (imageSrc : String) (sr : Bool) : String :=
  if usePng imageSrc sr then "image/png" else "image/jpeg"

/-- Output quality chosen on lines 79-86: none for PNG (PNG ignores the
quality parameter), the given quality for JPEG. -/
def outputQuality (imageSrc : String) (sr : Bool) (quality : ℚ) : Option ℚ :=
  if usePng imageSrc sr then none else some quality

/-- Value the compressImage promise resolves with: either the original
source string, or a data URL encoding the canvas, abstracted by its
format, canvas dimensions and quality argument. -/
inductive ImgOutput
  | original (src : String)
  | encoded (format : String) (width height : ℚ) (quality : Option ℚ)
  deriving DecidableEq

/-- Embeds the body of the onload handler, lines 34-88, for the case
where no canvas operation throws: the early return for images that fit
within the bounds and have fewer than 500000 pixels (lines 43-47), else
the scaled canvas re-encoded with the chosen format and quality. -/
def compressOnLoad (imageSrc : String)
    (width height maxWidth maxHeight quality : ℚ) : ImgOutput :=
  if !(shouldResize width height maxWidth maxHeight) &&
      decide (width * height < 500000) then
    .original imageSrc
  else
    .encoded (outputFormat imageSrc (shouldResize width height maxWidth maxHeight))
      (scaleDims width height maxWidth maxHeight).1
      (scaleDims width height maxWidth maxHeight).2
      (outputQuality imageSrc (shouldResize width height maxWidth maxHeight) quality)

/-! ## The promise as a whole (image-compress.js lines 14-117)

An environment fixes how the browser behaves for one source URL: what
an Image load attempt does as a function of whether crossOrigin was set,
and whether the canvas draw/encode path throws. The interpreter is fuel
indexed because the retry path of the source re-enters compressImage. -/

/-- Result of one Image load attempt. -/
inductive LoadResult
  | ok (width height : ℚ)
  | err

/-- Browser behaviour for one source URL: load outcome as a function of
the crossOrigin setting, whether canvas drawing or encoding throws, and
the page location. -/
structure Env where
  load : Bool → LoadResult
  drawThrows : Bool
  loc : Location

/-- Observable state of the promise after running with a given amount of
fuel: resolved with a value, rejected, or not yet settled. -/
inductive Settle
  | resolved (v : ImgOutput)
  | rejected
  | pending
  deriving DecidableEq

/-- Embeds one run of compressImage (lines 14-117). The onload handler
resolves with the onload computation, or with the original source when a
canvas operation throws (catch on lines 89-92; when the early return for
small images fires nothing can throw, and that path resolves with the
original source as well, which is also what the catch would produce).
The onerror handler (lines 95-114): with crossOrigin set it loads a
fresh plain Image, on whose success it re-enters compressImage with the
same arguments (the recursive call on lines 100-103, which recomputes
the crossOrigin condition on the unchanged URL) and on whose failure it
resolves with the original source; without crossOrigin set it resolves
with the original source. Fuel bounds the number of re-entries; fuel 0
means the promise has not settled. -/
def runCompress (fuel : Nat) (env : Env) (imageSrc : String)
    (maxWidth maxHeight quality : ℚ) : Settle :=
  match fuel with
  | 0 => .pending
  | f + 1 =>
    match env.load (setsCrossOrigin imageSrc env.loc) with
    | .ok width height =>
        if env.drawThrows then .resolved (.original imageSrc)
        else .resolved (compressOnLoad imageSrc width height maxWidth maxHeight quality)
    | .err =>
        if setsCrossOrigin imageSrc env.loc then
          match env.load false with
          | .ok _ _ => runCompress f env imageSrc maxWidth maxHeight quality
          | .err => .resolved (.original imageSrc)
        else .resolved (.original imageSrc)

/-! ## applyImageCompression (image-compress.js lines 124-168) -/

/-- The attributes of an img element that applyImageCompression reads and
writes: src, the data-compressed marker, the saved data-original-src, and
the two style properties it touches. -/
structure ImgElement where
  src : String
  compressed : Bool
  originalSrc : Option String
  opacity : String
  transition : String
  deriving DecidableEq

/-- Embeds one completed run of applyImageCompression on an element,
with compressedSrc standing for the value the awaited compressImage call
resolved with (possibly the original source itself). Skips elements
already marked compressed (lines 134-136) and elements whose source is
already a data:image URL (lines 140-143); otherwise writes the result
back, marks the element compressed, saves the original source, and when
showLoading is set leaves opacity at 1 with the fade transition
(lines 150-162). -/
def applyImageCompression (el : ImgElement) (showLoading : Bool)
    (compressedSrc : String) : ImgElement :=
  if el.compressed then el
  else if strStartsWith el.src "data:image" then el
  else
    { src := compressedSrc
      compressed := true
      originalSrc := some el.src
      opacity := if showLoading then "1" else el.opacity
      transition := if showLoading then "opacity 0.5s ease" else el.transition }

/-! ## compressAllImages (image-compress.js lines 174-205) -/

/-- The attributes of a selected element that compressAllImages reads:
its class list and its complete flag. -/
structure PageImg where
  classes : List String
  complete : Bool
  deriving DecidableEq

/-- What compressAllImages does with one selected element. -/
inductive ImgAction
  | skipped
  | applyNow
  | deferToLoad
  deriving DecidableEq

/-- Embeds the forEach body of lines 190-204: elements with the logo
class are skipped, complete elements get compression applied at once,
and the rest get a once-only load listener that applies compression. -/
def processImg (img : PageImg) : ImgAction :=
  if img.classes.contains "logo" then .skipped
  else if img.complete then .applyNow
  else .deferToLoad

/-- Embeds compressAllImages over the selected element list. -/
def compressAllImages (imgs : List PageImg) : List ImgAction :=
  imgs.map processImg

/-- Number of times applyImageCompression is invoked for an element given
how the page behaves: a skipped element never, a complete element once,
and a deferred element once per load event capped at one by the
once-true listener option of line 201. -/
def invocations (a : ImgAction) (loadEvents : Nat) : Nat :=
  match a with
  | .skipped => 0
  | .applyNow => 1
  | .deferToLoad => min loadEvents 1

/-- The caller-supplied options object of compressAllImages; a missing
field means the spread of defaultOptions on line 182 keeps the default. -/
structure AllOptions where
  maxWidth : Option ℚ
  maxHeight : Option ℚ
  quality : Option ℚ
  selector : Option String

/-- Selector after merging with defaultOptions (lines 175-182). -/
def finalSelector (o : AllOptions) : String := o.selector.getD "img"

/-! ## Helper lemmas -/

/-- shouldResize is false exactly when both dimensions fit. -/
theorem shouldResize_false_of_fits {w h maxW maxH : ℚ}
    (hw : w ≤ maxW) (hh : h ≤ maxH) :
    shouldResize w h maxW maxH = false := by
  simp only [shouldResize, Bool.or_eq_false_iff, decide_eq_false_iff_not, not_lt]
  exact ⟨hw, hh⟩

/-- When shouldResize is false, scaleDims is the identity. -/
theorem scaleDims_of_not_resize {w h maxW maxH : ℚ}
    (hsr : shouldResize w h maxW maxH = false) :
    scaleDims w h maxW maxH = (w, h) := by
  simp [scaleDims, hsr]

/-! ## C1: bounds on the scaled dimensions -/

/-- C1 counterexample: with width 2000 exceeding maxWidth 1920 (and
height 2500 within maxHeight 3000), the resize condition fires but the
scaling block clamps nothing: the width branch is not taken because the
height is larger, and the height branch does not clamp because the
height is within its bound, so the canvas width still exceeds maxWidth
and no dimension was clamped. -/
theorem C1_counterexample :
    shouldResize 2000 2500 1920 3000 = true ∧
    scaleDims 2000 2500 1920 3000 = (2000, 2500) ∧
    ¬((2000 : ℚ) ≤ 1920) := by
  refine ⟨by norm_num [shouldResize], by norm_num [scaleDims, shouldResize], by norm_num⟩

/-- C1 (amended): when maxWidth = maxHeight = M, for every oversized
image with positive dimensions the computed canvas dimensions both fit
within M, the larger dimension is clamped to M and the other is scaled
by the same ratio. -/
theorem C1_clamped_when_bounds_equal (w h M : ℚ)
    (hw : 0 < w) (hh : 0 < h) (hM : 0 < M)
    (hover : M < w ∨ M < h) :
    (scaleDims w h M M).1 ≤ M ∧ (scaleDims w h M M).2 ≤ M ∧
      (if h < w then scaleDims w h M M = (M, h * M / w)
       else scaleDims w h M M = (w * M / h, M)) := by
  have hsr : shouldResize w h M M = true := by
    rcases hover with h1 | h1 <;> simp [shouldResize, h1]
  by_cases hlt : h < w
  · have hMw : M < w := by
      rcases hover with h1 | h1
      · exact h1
      · exact lt_trans h1 hlt
    have heq : scaleDims w h M M = (M, h * M / w) := by
      simp [scaleDims, hsr, hlt, hMw]
    refine ⟨by rw [heq], ?_, by simp [hlt, heq]⟩
    rw [heq]
    show h * M / w ≤ M
    rw [div_le_iff₀ hw]
    nlinarith [mul_le_mul_of_nonneg_right hlt.le hM.le]
  · have hwh : w ≤ h := not_lt.1 hlt
    have hMh : M < h := by
      rcases hover with h1 | h1
      · exact lt_of_lt_of_le h1 hwh
      · exact h1
    have heq : scaleDims w h M M = (w * M / h, M) := by
      simp [scaleDims, hsr, hlt, hMh]
    refine ⟨?_, by rw [heq], by simp [hlt, heq]⟩
    rw [heq]
    show w * M / h ≤ M
    rw [div_le_iff₀ hh]
    nlinarith [mul_le_mul_of_nonneg_right hwh hM.le]

/-- C1 witness: a 3000 by 1000 image against the default 1920 bound is
clamped to 1920 by 640, within bounds. -/
theorem C1_clamped_witness :
    (scaleDims 3000 1000 1920 1920).1 ≤ 1920 ∧
    (scaleDims 3000 1000 1920 1920).2 ≤ 1920 :=
  ⟨(C1_clamped_when_bounds_equal 3000 1000 1920 (by norm_num) (by norm_num)
      (by norm_num) (Or.inl (by norm_num))).1,
   (C1_clamped_when_bounds_equal 3000 1000 1920 (by norm_num) (by norm_num)
      (by norm_num) (Or.inl (by norm_num))).2.1⟩

/-! ## C7: aspect ratio preservation -/

/-- C7: whenever the scaling block changes the dimensions, the result
preserves the aspect ratio exactly: the cross products of old and new
dimensions agree. -/
theorem C7_aspect_preserved (w h maxW maxH : ℚ) (hw : 0 < w) (hh : 0 < h)
    (hres : scaleDims w h maxW maxH ≠ (w, h)) :
    (scaleDims w h maxW maxH).1 * h = (scaleDims w h maxW maxH).2 * w := by
  unfold scaleDims
  split_ifs with h1 h2 h3 h4
  · show maxW * h = h * maxW / w * w
    rw [div_mul_cancel₀ _ hw.ne']
    ring
  · ring
  · show w * maxH / h * h = maxH * w
    rw [div_mul_cancel₀ _ hh.ne']
    ring
  · ring
  · ring

/-- C7 witness: the 3000 by 1000 image scaled to 1920 by 640 satisfies
1920 * 1000 = 640 * 3000. -/
theorem C7_aspect_witness :
    (scaleDims 3000 1000 1920 1920).1 * 1000
      = (scaleDims 3000 1000 1920 1920).2 * 3000 :=
  C7_aspect_preserved 3000 1000 1920 1920 (by norm_num) (by norm_num)
    (by norm_num [scaleDims, shouldResize, Prod.ext_iff])

/-! ## C2: output format selection -/

/-- C2 counterexample: the source tests includes(".png") on the
lower-cased URL, not an ends-with test, so the non-PNG path
"photo.png.jpg" (which does not end in ".png") is still encoded as PNG
when no resize is needed. -/
theorem C2_counterexample :
    compressOnLoad "photo.png.jpg" 1000 1000 1920 1920 (4 / 5)
      = .encoded "image/png" 1000 1000 none ∧
    strEndsWith "photo.png.jpg" ".png" = false := by
  constructor
  · norm_num [compressOnLoad, shouldResize, scaleDims, outputFormat,
      outputQuality, usePng]
    constructor <;> decide
  · decide

/-- C2 (amended): whenever compressOnLoad re-encodes, the format is PNG
exactly when the lower-cased source contains ".png" and the resize
condition was false, and every other re-encoded case is JPEG at the
given quality. -/
theorem C2_format_rule (imageSrc : String) (w h maxW maxH q : ℚ)
    (fmt : String) (w' h' : ℚ) (q' : Option ℚ)
    (henc : compressOnLoad imageSrc w h maxW maxH q = .encoded fmt w' h' q') :
    (fmt = "image/png" ↔
      (strIncludesLower imageSrc ".png" = true ∧
        shouldResize w h maxW maxH = false)) ∧
    (fmt = "image/png" → q' = none) ∧
    (fmt = "image/jpeg" → q' = some q) ∧
    (fmt = "image/png" ∨ fmt = "image/jpeg") := by
  unfold compressOnLoad at henc
  split_ifs at henc with hsmall
  injection henc with hfmt hweq hheq hq
  subst hfmt
  subst hq
  by_cases hb : usePng imageSrc (shouldResize w h maxW maxH) = true
  · have hparts := hb
    simp only [usePng, Bool.and_eq_true, Bool.not_eq_true'] at hparts
    simp only [outputFormat, outputQuality, hb, if_true]
    refine ⟨by simp [hparts], by simp, by simp, Or.inl trivial⟩
  · have hbf : usePng imageSrc (shouldResize w h maxW maxH) = false :=
      Bool.not_eq_true _ ▸ Bool.of_not_eq_true hb
    have hparts : ¬(strIncludesLower imageSrc ".png" = true ∧
        shouldResize w h maxW maxH = false) := by
      intro hc
      apply hb
      simp [usePng, hc.1, hc.2]
    simp only [outputFormat, outputQuality, hbf, Bool.false_eq_true,
      if_false]
    refine ⟨by simp [hparts], by simp, by simp, Or.inr trivial⟩

/-- C2 witness: a 900 by 900 PNG within bounds is re-encoded, and the
format rule applied to it yields the PNG side of the biconditional. -/
theorem C2_format_witness :
    (("image/png" : String) = "image/png" ↔
      (strIncludesLower "a.png" ".png" = true ∧
        shouldResize 900 900 1920 1920 = false)) ∧
    (("image/png" : String) = "image/png" → (none : Option ℚ) = none) ∧
    (("image/png" : String) = "image/jpeg" →
      (none : Option ℚ) = some (4 / 5)) ∧
    (("image/png" : String) = "image/png" ∨
      ("image/png" : String) = "image/jpeg") :=
  C2_format_rule "a.png" 900 900 1920 1920 (4 / 5) "image/png" 900 900 none
    (by norm_num [compressOnLoad, shouldResize, scaleDims, outputFormat,
        outputQuality, usePng]
        constructor <;> decide)

/-! ## C5: small in-bounds images pass through unchanged -/

/-- C5: when the load succeeds with dimensions within both bounds and a
pixel area below 500000, the promise resolves with the original source
string unchanged, whether or not canvas drawing would throw. -/
theorem C5_small_image_original (env : Env) (imageSrc : String)
    (w h maxW maxH q : ℚ) (fuel : Nat)
    (hload : env.load (setsCrossOrigin imageSrc env.loc) = .ok w h)
    (hw : w ≤ maxW) (hh : h ≤ maxH) (harea : w * h < 500000) :
    runCompress (fuel + 1) env imageSrc maxW maxH q
      = .resolved (.original imageSrc) := by
  have hsr : shouldResize w h maxW maxH = false :=
    shouldResize_false_of_fits hw hh
  have hdec : decide (w * h < 500000) = true := decide_eq_true harea
  simp only [runCompress]
  rw [hload]
  cases hd : env.drawThrows
  · simp [hd, compressOnLoad, hsr, hdec]
  · simp [hd]

/-- Environment for the C5 witness: every load attempt succeeds with a
600 by 600 image and drawing does not throw. -/
def okEnv : Env :=
  { load := fun _ => .ok 600 600
    drawThrows := false
    loc := { protocol := "http:", host := "mysite.example" } }

/-- C5 witness: a 600 by 600 image (360000 pixels) under the default
bounds resolves with its original source string. -/
theorem C5_small_witness :
    runCompress 1 okEnv "pic.jpg" 1920 1920 (4 / 5)
      = .resolved (.original "pic.jpg") :=
  C5_small_image_original okEnv "pic.jpg" 600 600 1920 1920 (4 / 5) 0 rfl
    (by norm_num) (by norm_num) (by norm_num)

/-! ## C3 and C4: the cross-origin retry

Environment exhibiting the classic cross-origin situation the retry was
written for: the anonymous cross-origin load fails (the server sends no
CORS headers) while the plain load succeeds. -/

/-- Environment in which every crossOrigin load attempt fails and every
plain load attempt succeeds with an 800 by 800 image. -/
def corsEnv : Env :=
  { load := fun co => if co then .err else .ok 800 800
    drawThrows := false
    loc := { protocol := "http:", host := "mysite.example" } }

/-- C3: in the cross-origin failure mode where the plain retry load
succeeds, the promise never settles at any fuel: the retry re-enters
compressImage on the unchanged URL, which sets crossOrigin again and
fails again, so the promise neither resolves with the original source
nor rejects. -/
theorem C3_cors_retry_never_settles (fuel : Nat) :
    runCompress fuel corsEnv "http://cdn.example.com/photo.jpg" 1920 1920 (4 / 5)
      = .pending := by
  induction fuel with
  | zero => rfl
  | succ n ih => exact ih

/-- C4: for the cross-origin URL, the crossOrigin mode is set, the load
with it fails, the load without it succeeds, and one step of the retry
is the very same compressImage call again rather than a crossOrigin-free
completion: the retry does not run once without the cross-origin mode
and give up, it loops. -/
theorem C4_retry_reenters_with_cors (fuel : Nat) :
    setsCrossOrigin "http://cdn.example.com/photo.jpg" corsEnv.loc = true ∧
    corsEnv.load true = .err ∧
    corsEnv.load false = .ok 800 800 ∧
    runCompress (fuel + 1) corsEnv "http://cdn.example.com/photo.jpg" 1920 1920 (4 / 5)
      = runCompress fuel corsEnv "http://cdn.example.com/photo.jpg" 1920 1920 (4 / 5) :=
  ⟨by decide, rfl, rfl, rfl⟩

/-! ## C6: applyImageCompression is idempotent -/

/-- C6: a second run of applyImageCompression on the result of a first
run changes nothing, an element already marked compressed is left
unchanged, and an element whose source is already a data:image URL is
left unchanged. -/
theorem C6_applyTo_idempotent (el : ImgElement) (s s' : Bool) (r r' : String) :
    applyImageCompression (applyImageCompression el s r) s' r'
        = applyImageCompression el s r ∧
    (el.compressed = true → applyImageCompression el s r = el) ∧
    (strStartsWith el.src "data:image" = true →
      applyImageCompression el s r = el) := by
  refine ⟨?_, ?_, ?_⟩
  · unfold applyImageCompression
    by_cases h1 : el.compressed
    · simp [h1]
    · by_cases h2 : strStartsWith el.src "data:image"
      · simp [h1, h2]
      · simp [h1, h2]
  · intro h
    simp [applyImageCompression, h]
  · intro h
    unfold applyImageCompression
    by_cases h1 : el.compressed
    · simp [h1]
    · simp [h1, h]

/-- C6 witness: an element already marked compressed is returned
unchanged. -/
theorem C6_applyTo_witness :
    applyImageCompression ⟨"a.jpg", true, none, "1", ""⟩ true "x"
      = ⟨"a.jpg", true, none, "1", ""⟩ :=
  (C6_applyTo_idempotent ⟨"a.jpg", true, none, "1", ""⟩ true true "x" "y").2.1 rfl

/-! ## C8: compressAllImages -/

/-- C8: the selector defaults to img, every selected element is handled
by the per-element step, an element is skipped exactly when it has the
logo class, a non-logo complete element is compressed at once, a
non-logo incomplete element is deferred to its load event, and no
element is compressed more than once however many load events it
receives. -/
theorem C8_applyToAll (img : PageImg) (k : Nat) (imgs : List PageImg) :
    finalSelector ⟨none, none, none, none⟩ = "img" ∧
    compressAllImages imgs = imgs.map processImg ∧
    (processImg img = .skipped ↔ img.classes.contains "logo" = true) ∧
    (img.classes.contains "logo" = false → img.complete = true →
      processImg img = .applyNow) ∧
    (img.classes.contains "logo" = false → img.complete = false →
      processImg img = .deferToLoad) ∧
    invocations (processImg img) k ≤ 1 := by
  refine ⟨rfl, rfl, ?_, ?_, ?_, ?_⟩
  · unfold processImg
    split_ifs with h1 h2 <;> simp_all
  · intro h1 h2
    unfold processImg
    rw [h1, h2]
    simp
  · intro h1 h2
    unfold processImg
    rw [h1, h2]
    simp
  · cases hp : processImg img <;> simp [invocations]

/-- C8 witness: a non-logo element that has not finished loading is
deferred, and three load events still yield at most one compression. -/
theorem C8_applyToAll_witness :
    processImg ⟨["photo"], false⟩ = .deferToLoad ∧
    invocations (processImg ⟨["photo"], false⟩) 3 ≤ 1 :=
  ⟨(C8_applyToAll ⟨["photo"], false⟩ 3 []).2.2.2.2.1 (by decide) rfl,
   (C8_applyToAll ⟨["photo"], false⟩ 3 []).2.2.2.2.2⟩

/-! ## C9: the compressed marker is set even on fallback results -/

/-- C9: a completed run on an unprocessed non-data element marks it
compressed, stores its original source, and writes back whatever
compressImage resolved with, including the original source itself in
the fallback case; a repeat invocation then changes nothing, so the
compression is never retried. -/
theorem C9_marked_even_on_fallback (el : ImgElement) (s : Bool) (r : String)
    (h1 : el.compressed = false)
    (h2 : strStartsWith el.src "data:image" = false) :
    (applyImageCompression el s r).compressed = true ∧
    (applyImageCompression el s r).originalSrc = some el.src ∧
    (applyImageCompression el s r).src = r ∧
    applyImageCompression (applyImageCompression el s r) s r
      = applyImageCompression el s r := by
  have happ : applyImageCompression el s r =
      { src := r
        compressed := true
        originalSrc := some el.src
        opacity := if s then "1" else el.opacity
        transition := if s then "opacity 0.5s ease" else el.transition } := by
    simp [applyImageCompression, h1, h2]
  rw [happ]
  refine ⟨rfl, rfl, rfl, ?_⟩
  simp [applyImageCompression]

/-- C9 witness: an element whose compression fell back to the original
URL (compressImage resolved with the unchanged source) is still marked
compressed with its original source stored. -/
theorem C9_marked_witness :
    (applyImageCompression ⟨"http://a/b.jpg", false, none, "1", ""⟩ true
        "http://a/b.jpg").compressed = true ∧
    (applyImageCompression ⟨"http://a/b.jpg", false, none, "1", ""⟩ true
        "http://a/b.jpg").originalSrc = some "http://a/b.jpg" :=
  ⟨(C9_marked_even_on_fallback ⟨"http://a/b.jpg", false, none, "1", ""⟩ true
      "http://a/b.jpg" rfl (by decide)).1,
   (C9_marked_even_on_fallback ⟨"http://a/b.jpg", false, none, "1", ""⟩ true
      "http://a/b.jpg" rfl (by decide)).2.1⟩

/-! ## C10: in-bounds images of at least 500000 pixels keep their size -/

/-- C10: an image within both bounds whose pixel area is at least 500000
is re-encoded at its original width and height, as JPEG at the given
quality whenever the lower-cased source does not contain ".png". -/
theorem C10_reencode_keeps_dims (imageSrc : String) (w h maxW maxH q : ℚ)
    (hw : w ≤ maxW) (hh : h ≤ maxH) (harea : 500000 ≤ w * h) :
    compressOnLoad imageSrc w h maxW maxH q
      = .encoded (outputFormat imageSrc false) w h
          (outputQuality imageSrc false q) ∧
    (strIncludesLower imageSrc ".png" = false →
      outputFormat imageSrc false = "image/jpeg" ∧
      outputQuality imageSrc false q = some q) := by
  have hsr : shouldResize w h maxW maxH = false :=
    shouldResize_false_of_fits hw hh
  have hdec : decide (w * h < 500000) = false :=
    decide_eq_false (not_lt.2 harea)
  constructor
  · simp [compressOnLoad, hsr, hdec, scaleDims_of_not_resize hsr]
  · intro hn
    constructor <;> simp [outputFormat, outputQuality, usePng, hn]

/-- C10 witness: an 800 by 800 JPEG (640000 pixels) within the default
bounds is re-encoded as JPEG at quality 4/5 with unchanged dimensions. -/
theorem C10_reencode_witness :
    compressOnLoad "big.jpg" 800 800 1920 1920 (4 / 5)
      = .encoded (outputFormat "big.jpg" false) 800 800
          (outputQuality "big.jpg" false (4 / 5)) :=
  (C10_reencode_keeps_dims "big.jpg" 800 800 1920 1920 (4 / 5) (by norm_num)
    (by norm_num) (by norm_num)).1

end ImageCompress
